import Mathlib

/-!
Shallow embedding of `src/bot.py` (mc-telegram-bot): a Telegram bot that
gates Minecraft-server management commands behind a shared secret.

Modelling conventions:
* `bot_data["users"]` (the authorization set, with absence of the key
  meaning the empty set, matching `bot_data.get("users", set())`) is a
  `Finset Int` inside `BotState`.
* Each `async` handler becomes a pure function
  `Env → BotState → Input → HandlerResult`.  External side effects
  (spawning subprocesses, running curl, querying the status port, sending
  messages) are recorded as `Effect`s in the order they are attempted; the
  outcome of each fallible external call is supplied by the `Input` oracle
  fields (`Except` for calls that may raise), mirroring Python's
  try/except.  `reply_text` calls are collected in `replies`.
* `status.latency` is a float only ever interpolated into a message, so it
  is modelled by the string it renders as; no claim depends on its value.
-/

namespace McBot

/-- The single piece of shared mutable state: `context.bot_data["users"]`. -/
structure BotState where
  users : Finset Int
deriving DecidableEq

/-- Process environment: `os.getenv("SECRET_KEY")`. -/
structure Env where
  secretKey : Option String

instance : Inhabited Env := ⟨⟨none⟩⟩

/-- One sampled player from the mcstatus response (`player.name`, `player.id`). -/
structure Player where
  name : String
  id : String
deriving DecidableEq

/-- `status.players`: `sample` is `None` or a list; `online` is a count. -/
structure Players where
  sample : Option (List Player)
  online : Nat
deriving DecidableEq

/-- The status object returned by `JavaServer.status()`, restricted to the
fields the bot reads.  `latency` stands for the rendered latency value. -/
structure ServerStatus where
  players : Players
  latency : String
deriving DecidableEq

/-- External side effects a handler attempts, in attempt order. -/
inductive Effect where
  | spawn (script : String)
  | checkOutput (cmd : List String)
  | queryStatus (host : String) (port : Nat)
  | sendMessage (chatId : Int) (text : String)
  | setMyCommands (cmds : List (String × String))
deriving DecidableEq

/-- What one handler invocation produces: the new shared state, the
external actions attempted, and the texts replied to the invoking user. -/
structure HandlerResult where
  state : BotState
  effects : List Effect
  replies : List String
deriving DecidableEq

/-- Everything one invocation reads besides the shared state: the update
(user id, username, parsed args, raw message text) and the oracle outcomes
of the fallible external calls the handler may attempt. -/
structure Input where
  userId : Int
  username : Option String
  args : List String
  text : Option String
  popenResult : Except String Unit
  curlResult : Except String String
  statusResult : Except String ServerStatus
  sendOk : Int → Bool

/-- A command handler, uniformly typed for the dispatch table. -/
def Handler : Type := Env → BotState → Input → HandlerResult

/-- `/start` (`start` in bot.py): unlocked users get a greeting; otherwise a
single argument equal to `SECRET_KEY` unlocks the user, a wrong key is
rejected, and any other argument shape gets the usage hint.  Note Python's
`key != os.getenv("SECRET_KEY")` is true whenever the variable is unset. -/
def start : Handler := fun env s inp =>
  if inp.userId ∈ s.users then
    ⟨s, [], ["👋 Ciao! Sei già sbloccato."]⟩
  else
    match inp.args with
    | [key] =>
        if some key ≠ env.secretKey then
          ⟨s, [], ["🔒 Chiave segreta errata. Riprova."]⟩
        else
          ⟨⟨insert inp.userId s.users⟩, [], ["🔓 Benvenuto! Ora puoi usare il bot."]⟩
    | _ =>
        ⟨s, [],
          ["Ciao! Per usare questo bot, devi conoscere la chiave segreta. Scrivila dopo il comando /start 🤫🔑"]⟩

/-- Python `str.strip()` with no argument: remove leading and trailing
whitespace.  Defined structurally over the character list so that concrete
instances compute in the kernel. -/
def py_strip (s : String) : String :=
  String.mk (((s.data.dropWhile Char.isWhitespace).reverse.dropWhile Char.isWhitespace).reverse)

/-- Python string slicing `s[n:]` (character-based, like Python's). -/
def py_drop (s : String) (n : Nat) : String :=
  String.mk (s.data.drop n)

/-- `/start_server` (`start_server` in bot.py): gate on the authorization
set; spawn `start_server.sh`; on success also fetch the public IP with
curl, each failure caught and reported. -/
def start_server : Handler := fun _env s inp =>
  if inp.userId ∉ s.users then
    ⟨s, [], ["🔒 Devi sbloccare il bot prima di poter avviare il server."]⟩
  else
    match inp.popenResult with
    | .error _ =>
        ⟨s, [Effect.spawn "start_server.sh"], ["❌ Errore nell'avvio del server."]⟩
    | .ok _ =>
        match inp.curlResult with
        | .error _ =>
            ⟨s, [Effect.spawn "start_server.sh", Effect.checkOutput ["curl", "-s", "ifconfig.me"]],
              ["🚀 Server avviato con successo!", "❌ Errore nel recupero dell'indirizzo IP pubblico."]⟩
        | .ok raw =>
            let public_ip := py_strip raw
            ⟨s, [Effect.spawn "start_server.sh", Effect.checkOutput ["curl", "-s", "ifconfig.me"]],
              ["🚀 Server avviato con successo!", s!"🌐 L'indirizzo IP del server è: {public_ip}"]⟩

/-- `/stop_server` (`stop_server` in bot.py). -/
def stop_server : Handler := fun _env s inp =>
  if inp.userId ∉ s.users then
    ⟨s, [], ["🔒 Devi sbloccare il bot prima di poter arrestare il server."]⟩
  else
    match inp.popenResult with
    | .error _ =>
        ⟨s, [Effect.spawn "stop_server.sh"], ["❌ Errore nell'arresto del server."]⟩
    | .ok _ =>
        ⟨s, [Effect.spawn "stop_server.sh"], ["🛑 Server arrestato con successo!"]⟩

/-- `/server_ip` (`server_ip` in bot.py): curl ifconfig.me, decode, strip. -/
def server_ip : Handler := fun _env s inp =>
  if inp.userId ∉ s.users then
    ⟨s, [], ["🔒 Devi sbloccare il bot per poter usare questo comando."]⟩
  else
    match inp.curlResult with
    | .error _ =>
        ⟨s, [Effect.checkOutput ["curl", "-s", "ifconfig.me"]],
          ["❌ Errore nel recupero dell'indirizzo IP pubblico."]⟩
    | .ok raw =>
        let public_ip := py_strip raw
        ⟨s, [Effect.checkOutput ["curl", "-s", "ifconfig.me"]],
          [s!"🌐 L'indirizzo IP del server è: {public_ip}"]⟩

/-- `telegram.helpers.escape_markdown` (version 1): prefix each of the
characters `_`, `*`, backtick, `[` with a backslash. -/
def escape_markdown (s : String) : String :=
  String.mk (s.data.foldr
    (fun c acc => if c = '_' ∨ c = '*' ∨ c = '`' ∨ c = '[' then '\\' :: c :: acc else c :: acc)
    [])

/-- One line of the per-player listing in `status_message`. -/
def player_line (player : Player) : String :=
  s!"  - {escape_markdown player.name} ({escape_markdown player.id})"

/-- `status_message` in bot.py, mirroring its append/extend sequence.
Python's `if status.players.sample:` is true iff the field is neither
`None` nor the empty list, i.e. iff `sample.getD []` is nonempty;
`if status.players.online:` is true iff the count is nonzero. -/
def status_message (status : ServerStatus) : String :=
  let msg_lines := ["🟢 Il server è online!"]
  let msg_lines :=
    if (status.players.sample.getD []).isEmpty = false then
      msg_lines ++ ["👥 Giocatori online: "]
        ++ (status.players.sample.getD []).map player_line
    else if status.players.online ≠ 0 then
      msg_lines ++ [s!"👥 Giocatori online: {status.players.online}"]
    else
      msg_lines ++ ["👥 Nessun giocatore online."]
  let msg_lines := msg_lines ++ [s!"🕒 Latenza: {status.latency} ms"]
  String.intercalate "\n" msg_lines

/-- `/server_status` (`server_status` in bot.py): query localhost:25565,
report failures, otherwise reply with `status_message`. -/
def server_status : Handler := fun _env s inp =>
  if inp.userId ∉ s.users then
    ⟨s, [], ["🔒 Devi sbloccare il bot per poter usare questo comando."]⟩
  else
    match inp.statusResult with
    | .error _ =>
        ⟨s, [Effect.queryStatus "localhost" 25565],
          ["❌ Errore nel recupero dello stato del server."]⟩
    | .ok status =>
        ⟨s, [Effect.queryStatus "localhost" 25565], [status_message status]⟩

/-- The iteration order of `for user in context.bot_data.get("users", set())`:
Python set iteration order is unspecified, modelled here by the sorted
order of the set. -/
def broadcast_recipients (s : BotState) : List Int :=
  s.users.sort (· ≤ ·)

/-- The `failed` list accumulated by the broadcast loop: the recipients
whose `send_message` raised. -/
def broadcast_failed (s : BotState) (sendOk : Int → Bool) : List Int :=
  (broadcast_recipients s).filter (fun u => !(sendOk u))

/-- The partial-failure reply of `/broadcast`. -/
def broadcast_failure_reply (n : Nat) : String :=
  s!"✅ Messaggio inviato. ❌ Impossibile inviare a {n} utenti."

/-- `/broadcast` (`broadcast` in bot.py): gate, validate the message text
(everything after `"/broadcast "`, stripped), then send it to every user in
the authorization set, collecting failures. -/
def broadcast : Handler := fun _env s inp =>
  if inp.userId ∉ s.users then
    ⟨s, [], ["🔒 Devi sbloccare il bot per usare questo comando."]⟩
  else
    match inp.text with
    | none =>
        ⟨s, [], ["❌ Devi fornire un messaggio da inviare. Usa: /broadcast <messaggio>"]⟩
    | some t =>
        if py_strip t = "" then
          ⟨s, [], ["❌ Devi fornire un messaggio da inviare. Usa: /broadcast <messaggio>"]⟩
        else
          let message := py_strip (py_drop t "/broadcast ".length)
          if message = "" then
            ⟨s, [], ["❌ Il messaggio non può essere vuoto. Usa: /broadcast <messaggio>"]⟩
          else
            let failed := broadcast_failed s inp.sendOk
            ⟨s, (broadcast_recipients s).map (fun u => Effect.sendMessage u message),
              if failed.isEmpty then
                ["✅ Messaggio inviato a tutti gli utenti!"]
              else
                [broadcast_failure_reply failed.length]⟩

/-- The command list `help_command` both replies with and registers via
`set_my_commands`. -/
def help_entries : List (String × String) :=
  [("start", "Sblocca il bot"),
   ("start_server", "Avvia il server"),
   ("stop_server", "Arresta il server"),
   ("server_ip", "Mostra l'indirizzo IP del server"),
   ("server_status", "Mostra lo stato del server"),
   ("broadcast", "Invia un messaggio a tutti gli utenti del bot")]

/-- `/help` (`help_command` in bot.py): gate, reply with the command list,
then call `set_my_commands`. -/
def help_command : Handler := fun _env s inp =>
  if inp.userId ∉ s.users then
    ⟨s, [], ["🔒 Devi sbloccare il bot per poter usare questo comando."]⟩
  else
    ⟨s, [Effect.setMyCommands help_entries],
      ["ℹ️ Questo bot ti permette di gestire un server Minecraft. Ecco i comandi disponibili:\n"
        ++ String.intercalate "\n"
          (help_entries.map (fun c => s!"  - /{c.fst}: {c.snd}"))]⟩

/-- The dispatch table built in `main`: command name → handler. -/
def commands : List (String × Handler) :=
  [("start", start),
   ("start_server", start_server),
   ("stop_server", stop_server),
   ("server_ip", server_ip),
   ("server_status", server_status),
   ("help", help_command),
   ("broadcast", broadcast)]

/-- Modelled from the spec: the persistence layer (`PicklePersistence` of
the chat SDK, wired up in `main` at `data.pkl`) is external to this
repository; the spec scopes it as "durably remember a set of integers
across restarts".  Saving serialises the authorization set as its sorted
list of integers. -/
def save_bot_data (s : BotState) : List Int :=
  s.users.sort (· ≤ ·)

/-- Modelled from the spec: loading at startup rebuilds the authorization
set from the persisted list of integers. -/
def load_bot_data (file : List Int) : BotState :=
  ⟨file.toFinset⟩

/-- A restart of the bot process: the durably saved data is reloaded. -/
def restart (s : BotState) : BotState :=
  load_bot_data (save_bot_data s)

/-- The body of the status reply as the specification words it: exactly one
of three mutually exclusive branches — a nonempty player sample lists each
sampled player's markdown-escaped name and id; otherwise a nonzero online
count is shown; otherwise no players are online. -/
def status_body_spec (status : ServerStatus) : List String :=
  match status.players.sample with
  | some (p :: ps) =>
      "👥 Giocatori online: " :: (p :: ps).map player_line
  | _ =>
      if status.players.online ≠ 0 then
        [s!"👥 Giocatori online: {status.players.online}"]
      else
        ["👥 Nessun giocatore online."]

/-! ### Helper lemmas -/

theorem start_server_state (env : Env) (s : BotState) (inp : Input) :
    (start_server env s inp).state = s := by
  simp only [start_server]
  split
  · rfl
  · split
    · rfl
    · split <;> rfl

theorem stop_server_state (env : Env) (s : BotState) (inp : Input) :
    (stop_server env s inp).state = s := by
  simp only [stop_server]
  split
  · rfl
  · split <;> rfl

theorem server_ip_state (env : Env) (s : BotState) (inp : Input) :
    (server_ip env s inp).state = s := by
  simp only [server_ip]
  split
  · rfl
  · split <;> rfl

theorem server_status_state (env : Env) (s : BotState) (inp : Input) :
    (server_status env s inp).state = s := by
  simp only [server_status]
  split
  · rfl
  · split <;> rfl

theorem help_command_state (env : Env) (s : BotState) (inp : Input) :
    (help_command env s inp).state = s := by
  simp only [help_command]
  split <;> rfl

theorem broadcast_state (env : Env) (s : BotState) (inp : Input) :
    (broadcast env s inp).state = s := by
  simp only [broadcast]
  split
  · rfl
  · split
    · rfl
    · split
      · rfl
      · split
        · rfl
        · rfl

/-! ### Claim theorems -/

/-- C4: the only shared mutable state is the authorization set, and every
command handler other than `/start` leaves the bot state unchanged on every
path, error paths included. -/
theorem non_start_handlers_preserve_state (env : Env) (s : BotState) (inp : Input) :
    (start_server env s inp).state = s ∧
    (stop_server env s inp).state = s ∧
    (server_ip env s inp).state = s ∧
    (server_status env s inp).state = s ∧
    (help_command env s inp).state = s ∧
    (broadcast env s inp).state = s :=
  ⟨start_server_state env s inp, stop_server_state env s inp, server_ip_state env s inp,
    server_status_state env s inp, help_command_state env s inp, broadcast_state env s inp⟩

/-- C8: the authorization set grows monotonically — after any of the seven
registered handlers runs, the set of users is a superset of what it was. -/
theorem users_grow_monotone (env : Env) (s : BotState) (inp : Input) :
    s.users ⊆ (start env s inp).state.users ∧
    s.users ⊆ (start_server env s inp).state.users ∧
    s.users ⊆ (stop_server env s inp).state.users ∧
    s.users ⊆ (server_ip env s inp).state.users ∧
    s.users ⊆ (server_status env s inp).state.users ∧
    s.users ⊆ (help_command env s inp).state.users ∧
    s.users ⊆ (broadcast env s inp).state.users := by
  refine ⟨?_, ?_, ?_, ?_, ?_, ?_, ?_⟩
  · simp only [start]
    split
    · exact Finset.Subset.refl _
    · split
      · split
        · exact Finset.Subset.refl _
        · exact Finset.subset_insert _ _
      · exact Finset.Subset.refl _
  · rw [start_server_state]
  · rw [stop_server_state]
  · rw [server_ip_state]
  · rw [server_status_state]
  · rw [help_command_state]
  · rw [broadcast_state]

/-- C6: every invocation of every registered handler sends at least one
reply to the invoking user, on every path. -/
theorem every_handler_replies (env : Env) (s : BotState) (inp : Input) :
    (start env s inp).replies ≠ [] ∧
    (start_server env s inp).replies ≠ [] ∧
    (stop_server env s inp).replies ≠ [] ∧
    (server_ip env s inp).replies ≠ [] ∧
    (server_status env s inp).replies ≠ [] ∧
    (help_command env s inp).replies ≠ [] ∧
    (broadcast env s inp).replies ≠ [] := by
  refine ⟨?_, ?_, ?_, ?_, ?_, ?_, ?_⟩ <;>
    · simp only [start, start_server, stop_server, server_ip, server_status, help_command,
        broadcast]
      repeat' split
      all_goals simp

/-- C7: the dispatch table built in `main` registers exactly the seven
commands, each name bound to its like-named handler. -/
theorem dispatch_table_exact :
    commands.map Prod.fst =
      ["start", "start_server", "stop_server", "server_ip", "server_status", "help",
        "broadcast"] ∧
    commands.lookup "start" = some start ∧
    commands.lookup "start_server" = some start_server ∧
    commands.lookup "stop_server" = some stop_server ∧
    commands.lookup "server_ip" = some server_ip ∧
    commands.lookup "server_status" = some server_status ∧
    commands.lookup "help" = some help_command ∧
    commands.lookup "broadcast" = some broadcast :=
  ⟨rfl, rfl, rfl, rfl, rfl, rfl, rfl, rfl⟩

/-- C5: the authorization set is persisted durably — reloading what was
saved yields the same set of unlocked user ids, so every user unlocked
before a restart is still authorized after it. -/
theorem users_survive_restart (s : BotState) :
    (restart s).users = s.users := by
  simp only [restart, load_bot_data, save_bot_data]
  exact Finset.sort_toFinset _ _

/-- C9: `/start` for an already-unlocked user replies with the greeting and
changes nothing, whatever the supplied argument is — in particular a wrong
key still yields the greeting. -/
theorem start_already_unlocked (env : Env) (s : BotState) (inp : Input)
    (h : inp.userId ∈ s.users) :
    start env s inp = ⟨s, [], ["👋 Ciao! Sei già sbloccato."]⟩ := by
  simp [start, h]

/-- Witness for C9: user 42 is unlocked and presents a wrong key, yet gets
the greeting and the state is unchanged. -/
theorem start_already_unlocked_witness :
    start ⟨some "k"⟩ ⟨{42}⟩
        ⟨42, none, ["wrong"], none, Except.ok (), Except.ok "", Except.error "e", fun _ => true⟩
      = ⟨⟨{42}⟩, [], ["👋 Ciao! Sei già sbloccato."]⟩ :=
  start_already_unlocked _ _ _ (by decide)

/-- C2: a user id is added exactly when a not-yet-unlocked user presents a
single argument equal to the secret key; a wrong key or a different
argument shape leaves the set unchanged and yields the rejection or the
hint reply. -/
theorem start_unlock_exact (env : Env) (s : BotState) (inp : Input) :
    (inp.userId ∉ s.users → ∀ key, inp.args = [key] → env.secretKey = some key →
        start env s inp =
          ⟨⟨insert inp.userId s.users⟩, [], ["🔓 Benvenuto! Ora puoi usare il bot."]⟩) ∧
    (inp.userId ∉ s.users → ∀ key, inp.args = [key] → env.secretKey ≠ some key →
        start env s inp = ⟨s, [], ["🔒 Chiave segreta errata. Riprova."]⟩) ∧
    (inp.userId ∉ s.users → (∀ key, inp.args ≠ [key]) →
        start env s inp =
          ⟨s, [],
            ["Ciao! Per usare questo bot, devi conoscere la chiave segreta. Scrivila dopo il comando /start 🤫🔑"]⟩) ∧
    ((start env s inp).state.users = s.users ∨
      (inp.userId ∉ s.users ∧ ∃ key, inp.args = [key] ∧ env.secretKey = some key ∧
        (start env s inp).state.users = insert inp.userId s.users)) := by
  refine ⟨?_, ?_, ?_, ?_⟩
  · intro h key hargs hkey
    simp [start, h, hargs, hkey]
  · intro h key hargs hkey
    simp [start, h, hargs, Ne.symm hkey]
  · intro h hargs
    rcases hA : inp.args with _ | ⟨a, _ | ⟨b, rest⟩⟩
    · simp [start, h, hA]
    · exact absurd hA (hargs a)
    · simp [start, h, hA]
  · by_cases h : inp.userId ∈ s.users
    · left
      simp [start, h]
    · rcases hA : inp.args with _ | ⟨a, _ | ⟨b, rest⟩⟩
      · left
        simp [start, h, hA]
      · by_cases hk : env.secretKey = some a
        · right
          exact ⟨h, a, rfl, hk, by simp [start, h, hA, hk]⟩
        · left
          simp [start, h, hA, Ne.symm hk]
      · left
        simp [start, h, hA]

/-- Witness for C2: with secret "k", user 42 (locked) is added with the
right key, rejected with a wrong key, and hinted with no argument. -/
theorem start_unlock_exact_witness :
    start ⟨some "k"⟩ ⟨∅⟩
        ⟨42, none, ["k"], none, Except.ok (), Except.ok "", Except.error "e", fun _ => true⟩
      = ⟨⟨insert 42 ∅⟩, [], ["🔓 Benvenuto! Ora puoi usare il bot."]⟩ ∧
    start ⟨some "k"⟩ ⟨∅⟩
        ⟨42, none, ["x"], none, Except.ok (), Except.ok "", Except.error "e", fun _ => true⟩
      = ⟨⟨∅⟩, [], ["🔒 Chiave segreta errata. Riprova."]⟩ ∧
    start ⟨some "k"⟩ ⟨∅⟩
        ⟨42, none, [], none, Except.ok (), Except.ok "", Except.error "e", fun _ => true⟩
      = ⟨⟨∅⟩, [],
          ["Ciao! Per usare questo bot, devi conoscere la chiave segreta. Scrivila dopo il comando /start 🤫🔑"]⟩ :=
  ⟨(start_unlock_exact _ _ _).1 (by decide) "k" rfl rfl,
   (start_unlock_exact _ _ _).2.1 (by decide) "x" rfl (by decide),
   (start_unlock_exact _ _ _).2.2.1 (by decide) (fun key h => List.noConfusion h)⟩

/-- C1 as stated is false on the code: user 42 is in the authorization set,
yet `/broadcast` with no message argument performs no side-effecting action
at all. -/
theorem broadcast_gate_counterexample :
    (42 : Int) ∈ (BotState.mk {42}).users ∧
    (broadcast ⟨some "k"⟩ ⟨{42}⟩
        ⟨42, none, [], some "/broadcast", Except.ok (), Except.ok "", Except.error "e",
          fun _ => true⟩).effects = [] ∧
    (broadcast ⟨some "k"⟩ ⟨{42}⟩
        ⟨42, none, [], some "/broadcast", Except.ok (), Except.ok "", Except.error "e",
          fun _ => true⟩).replies
      = ["❌ Il messaggio non può essere vuoto. Usa: /broadcast <messaggio>"] := by
  refine ⟨by decide, ?_, ?_⟩ <;> rfl

/-- C1 amended: when the invoking user is not in the authorization set each
privileged handler replies with its lock message and performs no side
effect; when the user is in the set the gate is passed and the action is
attempted — except that `/broadcast` attempts its sends only when a
nonempty message argument was supplied. -/
theorem privileged_gate (env : Env) (s : BotState) (inp : Input) :
    (inp.userId ∉ s.users →
      start_server env s inp
          = ⟨s, [], ["🔒 Devi sbloccare il bot prima di poter avviare il server."]⟩ ∧
      stop_server env s inp
          = ⟨s, [], ["🔒 Devi sbloccare il bot prima di poter arrestare il server."]⟩ ∧
      server_ip env s inp = ⟨s, [], ["🔒 Devi sbloccare il bot per poter usare questo comando."]⟩ ∧
      server_status env s inp
          = ⟨s, [], ["🔒 Devi sbloccare il bot per poter usare questo comando."]⟩ ∧
      help_command env s inp
          = ⟨s, [], ["🔒 Devi sbloccare il bot per poter usare questo comando."]⟩ ∧
      broadcast env s inp = ⟨s, [], ["🔒 Devi sbloccare il bot per usare questo comando."]⟩) ∧
    (inp.userId ∈ s.users →
      (start_server env s inp).effects ≠ [] ∧
      (stop_server env s inp).effects ≠ [] ∧
      (server_ip env s inp).effects ≠ [] ∧
      (server_status env s inp).effects ≠ [] ∧
      (help_command env s inp).effects ≠ [] ∧
      (inp.text = none →
        broadcast env s inp
          = ⟨s, [], ["❌ Devi fornire un messaggio da inviare. Usa: /broadcast <messaggio>"]⟩) ∧
      (∀ t, inp.text = some t → py_strip t = "" →
        broadcast env s inp
          = ⟨s, [], ["❌ Devi fornire un messaggio da inviare. Usa: /broadcast <messaggio>"]⟩) ∧
      (∀ t, inp.text = some t → py_strip t ≠ "" →
        py_strip (py_drop t "/broadcast ".length) = "" →
        broadcast env s inp
          = ⟨s, [], ["❌ Il messaggio non può essere vuoto. Usa: /broadcast <messaggio>"]⟩) ∧
      (∀ t, inp.text = some t → py_strip t ≠ "" →
        py_strip (py_drop t "/broadcast ".length) ≠ "" →
        (broadcast env s inp).effects ≠ [])) := by
  constructor
  · intro h
    refine ⟨?_, ?_, ?_, ?_, ?_, ?_⟩ <;>
      simp [start_server, stop_server, server_ip, server_status, help_command, broadcast, h]
  · intro h
    have h' : ¬inp.userId ∉ s.users := not_not_intro h
    refine ⟨?_, ?_, ?_, ?_, ?_, ?_, ?_, ?_, ?_⟩
    · simp only [start_server, if_neg h']
      split
      · simp
      · split <;> simp
    · simp only [stop_server, if_neg h']
      split <;> simp
    · simp only [server_ip, if_neg h']
      split <;> simp
    · simp only [server_status, if_neg h']
      split <;> simp
    · simp [help_command, if_neg h']
    · intro ht
      simp [broadcast, if_neg h', ht]
    · intro t ht htrim
      simp [broadcast, if_neg h', ht, htrim]
    · intro t ht htrim hmsg
      simp only [broadcast, if_neg h', ht]
      rw [if_neg htrim, if_pos hmsg]
    · intro t ht htrim hmsg
      simp only [broadcast, if_neg h', ht]
      rw [if_neg htrim, if_neg hmsg]
      intro hnil
      simp only [List.map_eq_nil_iff] at hnil
      have hm : inp.userId ∈ broadcast_recipients s := by
        simpa [broadcast_recipients, Finset.mem_sort] using h
      rw [hnil] at hm
      exact absurd hm (List.not_mem_nil _)

/-- Witness for the amended C1: user 42, locked, gets the lock reply from
`/start_server`; unlocked, `/start_server` and a nonempty `/broadcast`
both attempt their actions, while a missing and an empty `/broadcast`
message each yield the usage reply with no side effect. -/
theorem privileged_gate_witness :
    start_server ⟨none⟩ ⟨∅⟩
        ⟨42, none, [], some "/broadcast ciao", Except.ok (), Except.ok "", Except.error "e",
          fun _ => true⟩
      = ⟨⟨∅⟩, [], ["🔒 Devi sbloccare il bot prima di poter avviare il server."]⟩ ∧
    (start_server ⟨none⟩ ⟨{42}⟩
        ⟨42, none, [], some "/broadcast ciao", Except.ok (), Except.ok "", Except.error "e",
          fun _ => true⟩).effects ≠ [] ∧
    (broadcast ⟨none⟩ ⟨{42}⟩
        ⟨42, none, [], some "/broadcast ciao", Except.ok (), Except.ok "", Except.error "e",
          fun _ => true⟩).effects ≠ [] ∧
    broadcast ⟨none⟩ ⟨{42}⟩
        ⟨42, none, [], none, Except.ok (), Except.ok "", Except.error "e", fun _ => true⟩
      = ⟨⟨{42}⟩, [], ["❌ Devi fornire un messaggio da inviare. Usa: /broadcast <messaggio>"]⟩ ∧
    broadcast ⟨none⟩ ⟨{42}⟩
        ⟨42, none, [], some "/broadcast", Except.ok (), Except.ok "", Except.error "e",
          fun _ => true⟩
      = ⟨⟨{42}⟩, [], ["❌ Il messaggio non può essere vuoto. Usa: /broadcast <messaggio>"]⟩ :=
  ⟨((privileged_gate _ _ _).1 (by decide)).1,
   ((privileged_gate _ _ _).2 (by decide)).1,
   ((privileged_gate _ _ _).2 (by decide)).2.2.2.2.2.2.2.2 "/broadcast ciao" rfl (by decide)
     (by decide),
   ((privileged_gate _ _ _).2 (by decide)).2.2.2.2.2.1 rfl,
   ((privileged_gate _ _ _).2 (by decide)).2.2.2.2.2.2.2.1 "/broadcast" rfl (by decide)
     (by decide)⟩

/-- C3: every exception a handler's side-effecting action raises is caught
inside the handler and reported to the invoking user as an error reply, and
the authorization set is unchanged on the error path.  (No exception
escapes: the handlers are total functions of the oracle outcomes.) -/
theorem handler_errors_reported (env : Env) (s : BotState) (inp : Input)
    (hu : inp.userId ∈ s.users) :
    (∀ e, inp.popenResult = Except.error e →
        start_server env s inp
            = ⟨s, [Effect.spawn "start_server.sh"], ["❌ Errore nell'avvio del server."]⟩ ∧
        stop_server env s inp
            = ⟨s, [Effect.spawn "stop_server.sh"], ["❌ Errore nell'arresto del server."]⟩) ∧
    (∀ e, inp.curlResult = Except.error e →
        server_ip env s inp
            = ⟨s, [Effect.checkOutput ["curl", "-s", "ifconfig.me"]],
                ["❌ Errore nel recupero dell'indirizzo IP pubblico."]⟩ ∧
        (inp.popenResult = Except.ok () →
          start_server env s inp
              = ⟨s,
                  [Effect.spawn "start_server.sh", Effect.checkOutput ["curl", "-s", "ifconfig.me"]],
                  ["🚀 Server avviato con successo!",
                    "❌ Errore nel recupero dell'indirizzo IP pubblico."]⟩)) ∧
    (∀ e, inp.statusResult = Except.error e →
        server_status env s inp
            = ⟨s, [Effect.queryStatus "localhost" 25565],
                ["❌ Errore nel recupero dello stato del server."]⟩) ∧
    (∀ t, inp.text = some t → py_strip t ≠ "" →
        py_strip (py_drop t "/broadcast ".length) ≠ "" →
        broadcast_failed s inp.sendOk ≠ [] →
        (broadcast env s inp).state = s ∧
        (broadcast env s inp).replies
          = [broadcast_failure_reply (broadcast_failed s inp.sendOk).length]) := by
  have h' : ¬inp.userId ∉ s.users := not_not_intro hu
  refine ⟨?_, ?_, ?_, ?_⟩
  · intro e he
    constructor
    · simp [start_server, if_neg h', he]
    · simp [stop_server, if_neg h', he]
  · intro e he
    constructor
    · simp [server_ip, if_neg h', he]
    · intro hp
      simp [start_server, if_neg h', he, hp]
  · intro e he
    simp [server_status, if_neg h', he]
  · intro t ht htrim hmsg hf
    simp only [broadcast, if_neg h', ht]
    rw [if_neg htrim, if_neg hmsg]
    rcases hfd : broadcast_failed s inp.sendOk with _ | ⟨a, as⟩
    · exact absurd hfd hf
    · simp [hfd]

/-- Witness for C3: with user 42 unlocked, a failing spawn, a failing
status query and a failing broadcast send are each caught and reported, and
a failing curl after a successful spawn likewise. -/
theorem handler_errors_reported_witness :
    stop_server ⟨none⟩ ⟨{42}⟩
        ⟨42, none, [], some "/broadcast ciao", Except.error "boom", Except.error "boom",
          Except.error "boom", fun _ => false⟩
      = ⟨⟨{42}⟩, [Effect.spawn "stop_server.sh"], ["❌ Errore nell'arresto del server."]⟩ ∧
    server_status ⟨none⟩ ⟨{42}⟩
        ⟨42, none, [], some "/broadcast ciao", Except.error "boom", Except.error "boom",
          Except.error "boom", fun _ => false⟩
      = ⟨⟨{42}⟩, [Effect.queryStatus "localhost" 25565],
          ["❌ Errore nel recupero dello stato del server."]⟩ ∧
    start_server ⟨none⟩ ⟨{42}⟩
        ⟨42, none, [], some "/broadcast ciao", Except.ok (), Except.error "boom",
          Except.error "boom", fun _ => false⟩
      = ⟨⟨{42}⟩,
          [Effect.spawn "start_server.sh", Effect.checkOutput ["curl", "-s", "ifconfig.me"]],
          ["🚀 Server avviato con successo!",
            "❌ Errore nel recupero dell'indirizzo IP pubblico."]⟩ ∧
    (broadcast ⟨none⟩ ⟨{42}⟩
        ⟨42, none, [], some "/broadcast ciao", Except.error "boom", Except.error "boom",
          Except.error "boom", fun _ => false⟩).replies
      = [broadcast_failure_reply
          (broadcast_failed ⟨{42}⟩ (fun _ => false)).length] :=
  ⟨((handler_errors_reported _ _ _ (by decide)).1 "boom" rfl).2,
   (handler_errors_reported _ _ _ (by decide)).2.2.1 "boom" rfl,
   (((handler_errors_reported _ _ _ (by decide)).2.1 "boom" rfl).2 rfl),
   ((handler_errors_reported _ _ _ (by decide)).2.2.2 "/broadcast ciao" rfl (by decide)
       (by decide)
       (by simp [broadcast_failed, broadcast_recipients, Finset.sort_singleton])).2⟩

/-- C10: the status reply is the online header line, then exactly one of
the three mutually exclusive body branches (nonempty player sample listed
with markdown-escaped names and ids; otherwise nonzero online count;
otherwise no players), then the latency line, joined by newlines. -/
theorem status_message_structure (status : ServerStatus) :
    status_message status =
      String.intercalate "\n"
        ("🟢 Il server è online!" ::
          (status_body_spec status ++ ["🕒 Latenza: " ++ status.latency ++ " ms"])) := by
  rcases status with ⟨⟨sample, online⟩, latency⟩
  rcases sample with _ | ⟨_ | ⟨p, ps⟩⟩
  · by_cases ho : online = 0 <;>
      simp [status_message, status_body_spec, ho, toString]
  · by_cases ho : online = 0 <;>
      simp [status_message, status_body_spec, ho, toString]
  · simp [status_message, status_body_spec, toString]

end McBot
